import Mathlib

/-!
Shallow embedding of the smart-blinds firmware (`blinds_with_matter.ino`).

Pure state: the global variables of the sketch plus the `static` locals of
`run_calibration_mode` (`holdTimer`), `run_matter_mode` (`lastReqLiftRaw`)
and `updateSleepAndAutoSave` (`motorDisabled`).  All `uint16_t` values are
modelled as `Nat` with explicit `% 65536` at the update sites where C
wraparound can occur; `millis()` timestamps are `Nat` (the firmware assumes a
monotone clock, so `now - t` is ordinary truncated subtraction).  Arduino
`map` computes in `long` (32-bit signed); its truncating C division is
`Int.div`.  Side effects on the Matter collaborator are returned as an event
list; EEPROM is an explicit record threaded through the functions that write
it.  Serial logging, pin writes and `delayMicroseconds` have no effect on the
modelled state and are dropped.
-/

namespace SmartBlinds

/-- Timing and configuration constants from the top of the sketch. -/
def MOTOR_DISABLE_INTERVAL : Nat := 1000

def AUTO_SAVE_INTERVAL : Nat := 300000

def HOLD_TIMER_THRESHOLD : Nat := 3000

def STEPS_PER_PRESS : Nat := 5

def EEPROM_FLAG_VALUE : Nat := 0xABCD

def DEFAULT_MIN_POS : Nat := 0

def DEFAULT_MAX_POS : Nat := 1000

/-- Modulus of a `uint16_t`. -/
def U16 : Nat := 65536

/-- C cast of a `long` value to `uint16_t`: reduce modulo 2^16 into [0, 2^16)
(`%` on `Int` is Euclidean `emod`, non-negative for a positive modulus,
exactly the C conversion rule). -/
def toU16 (v : Int) : Nat := (v % 65536).toNat

/-- Arduino `map(x, in_min, in_max, out_min, out_max)`:
`(x - in_min) * (out_max - out_min) / (in_max - in_min) + out_min` in `long`
arithmetic; C division truncates toward zero, which is `Int.tdiv`.  (In the
sketch the operands never approach 2^31, so `long` overflow cannot occur.)
When `in_max = in_min` the C code divides by zero; `Int.tdiv _ 0 = 0` stands
in for that undefined result, and the divide-by-zero hazard is tracked by
looking at the divisor `in_max - in_min` directly. -/
def map_arduino (x in_min in_max out_min out_max : Int) : Int :=
  Int.tdiv ((x - in_min) * (out_max - out_min)) (in_max - in_min) + out_min

/-- The EEPROM record at the fixed offsets used by the sketch
(`EEPROM_MIN_POS_ADDR`, `EEPROM_MAX_POS_ADDR`, `EEPROM_CURR_POS_ADDR`,
`EEPROM_FLAG_ADDR`), each a `uint16_t`. -/
structure Eeprom where
  minPos : Nat
  maxPos : Nat
  currentPos : Nat
  flag : Nat
deriving DecidableEq, Repr

/-- The mutable program state: globals of the sketch plus the `static`
locals of the three stateful routines. -/
structure BlindsState where
  minPos : Nat
  maxPos : Nat
  currentPos : Nat
  lastSaved : Nat
  lastMoveTime : Nat
  eepromSaved : Bool
  lastEepromSaveTime : Nat
  calibratingMin : Bool
  /-- `static unsigned long holdTimer` of `run_calibration_mode` (0 = not counting). -/
  holdTimer : Nat
  /-- `static uint16_t lastReqLiftRaw` of `run_matter_mode`. -/
  lastReqLiftRaw : Nat
  /-- `static bool motorDisabled` of `updateSleepAndAutoSave`. -/
  motorDisabled : Bool
deriving DecidableEq, Repr

/-- Reports pushed to the Matter collaborator. -/
inductive MatterEvent where
  | actualRaw (v : Nat)
  | actualPercent (v : Nat)
  | opOpening
  | opClosing
  | opStopped
deriving DecidableEq, Repr

/-- The percentage the sketch computes at line 182:
`map(currentPos, minPos, maxPos, 0, 100)` cast to `uint16_t`. -/
def percent_of (minP maxP cur : Nat) : Nat :=
  toU16 (map_arduino (cur : Int) (minP : Int) (maxP : Int) 0 100)

/-- `move_stepper_single_step(moveUp, ignoreLimits, stepDelay)`: limit check,
one step pulse, position update with `uint16_t` wraparound, `lastMoveTime`
update, and the two Matter position reports.  The pulse width only affects
real time, not the modelled state. -/
def move_stepper_single_step (moveUp ignoreLimits : Bool) (now : Nat)
    (s : BlindsState) : BlindsState × List MatterEvent :=
  if !ignoreLimits && moveUp && decide (s.currentPos ≥ s.maxPos) then (s, [])
  else if !ignoreLimits && !moveUp && decide (s.currentPos ≤ s.minPos) then (s, [])
  else
    let cur' := if moveUp then (s.currentPos + 1) % U16 else (s.currentPos + 65535) % U16
    ({ s with currentPos := cur', lastMoveTime := now },
     [MatterEvent.actualRaw cur',
      MatterEvent.actualPercent (percent_of s.minPos s.maxPos cur')])

/-- The body of the `while (currentPos != newPos)` loop of
`move_stepper_to_position`, with the direction fixed at entry as in the
sketch (`int dir = (currentPos < newPos) ? 1 : -1`).  Returns the final
position and the number of loop iterations.  The loop has no fuel in C; here
fuel 65536 (supplied by the wrapper) is provably enough for any pair of
`uint16_t` positions, and exhaustion returns `none`. -/
def step_loop (dirUp : Bool) (newPos : Nat) : Nat → Nat → Option (Nat × Nat)
  | 0, cur => if cur = newPos then some (cur, 0) else none
  | fuel + 1, cur =>
    if cur = newPos then some (cur, 0)
    else
      let cur' := if dirUp then (cur + 1) % U16 else (cur + 65535) % U16
      match step_loop dirUp newPos fuel cur' with
      | none => none
      | some (f, n) => some (f, n + 1)

/-- `move_stepper_to_position(newPos)`: fix the direction from the entry
comparison, run the step loop to the target, counting iterations.  Each
iteration sets `lastMoveTime = millis()`, so after at least one step
`lastMoveTime` is the (single, modelled) current time `now`. -/
def move_stepper_to_position (newPos now : Nat) (s : BlindsState) :
    Option (BlindsState × Nat) :=
  let dirUp := decide (s.currentPos < newPos)
  match step_loop dirUp newPos U16 s.currentPos with
  | none => none
  | some (f, n) =>
    some ({ s with
              currentPos := f,
              lastMoveTime := if n = 0 then s.lastMoveTime else now }, n)

/-- The `for (int i = 0; i < STEPS_PER_PRESS; i++) move_stepper_single_step(dir, true, …)`
batches of `run_calibration_mode`. -/
def do_steps (moveUp : Bool) (now : Nat) : Nat → BlindsState → BlindsState
  | 0, s => s
  | k + 1, s => do_steps moveUp now k (move_stepper_single_step moveUp true now s).1

/-- `run_calibration_mode()`.  Inputs: the mode switch level, the two
debounced button states for this iteration (the sketch's `is_button_pressed`
debouncer is abstracted to its stable per-iteration result), and `millis()`.
Returns the new state and the new EEPROM contents. -/
def run_calibration_mode (modeSwitchHigh up down : Bool) (now : Nat)
    (s : BlindsState) (e : Eeprom) : BlindsState × Eeprom :=
  if !modeSwitchHigh then (s, e)
  else
    let s1 :=
      if s.calibratingMin then
        if up && !down then do_steps true now STEPS_PER_PRESS s
        else if down && !up then do_steps false now STEPS_PER_PRESS s
        else s
      else
        if up && !down then do_steps true now STEPS_PER_PRESS s
        else if down && !up then do_steps false now STEPS_PER_PRESS s
        else s
    if up && down then
      let holdStart := if s1.holdTimer = 0 then now else s1.holdTimer
      if now - holdStart ≥ HOLD_TIMER_THRESHOLD then
        if s1.calibratingMin then
          ({ s1 with minPos := s1.currentPos, calibratingMin := false, holdTimer := 0 },
           { e with minPos := s1.currentPos })
        else
          let newMin := if s1.currentPos < s1.minPos then s1.currentPos else s1.minPos
          let newMax := if s1.currentPos < s1.minPos then s1.minPos else s1.currentPos
          ({ s1 with
               minPos := newMin,
               maxPos := newMax,
               calibratingMin := true,
               holdTimer := 0 },
           { e with minPos := newMin, maxPos := newMax, currentPos := s1.currentPos })
      else ({ s1 with holdTimer := holdStart }, e)
    else ({ s1 with holdTimer := 0 }, e)

/-- `run_matter_mode()`.  Inputs: the requested raw lift position and
requested percent read from the Matter collaborator this iteration.  Returns
the new state, the number of motor step iterations performed, and the
Matter reports issued. -/
def run_matter_mode (reqLiftRaw : Nat) (reqPercent : Int) (now : Nat)
    (s : BlindsState) : Option (BlindsState × Nat × List MatterEvent) :=
  if reqLiftRaw = s.lastReqLiftRaw then some (s, 0, [])
  else
    let targetRaw := toU16 (map_arduino reqPercent 0 100 (s.minPos : Int) (s.maxPos : Int))
    let opEvent := if targetRaw > s.currentPos then MatterEvent.opOpening
                   else MatterEvent.opClosing
    match move_stepper_to_position targetRaw now s with
    | none => none
    | some (s', n) =>
      some ({ s' with lastReqLiftRaw := reqLiftRaw }, n,
        [opEvent, MatterEvent.actualRaw reqLiftRaw, MatterEvent.opStopped])

/-- `updateSleepAndAutoSave()`: disable the motor stage after the short idle
interval, auto-save after the long idle interval under the guards at lines
342-351, and sleep/wake the driver.  The returned `Bool` is the level left
on the sleep pin this call (`false` = driver asleep, `true` = awake). -/
def updateSleepAndAutoSave (now : Nat) (s : BlindsState) (e : Eeprom) :
    BlindsState × Eeprom × Bool :=
  let s1 := if now - s.lastMoveTime ≥ MOTOR_DISABLE_INTERVAL then
              { s with motorDisabled := true }
            else { s with motorDisabled := false }
  if now - s1.lastMoveTime ≥ AUTO_SAVE_INTERVAL then
    if !s1.eepromSaved && decide (now - s1.lastEepromSaveTime ≥ AUTO_SAVE_INTERVAL) then
      if s1.lastSaved ≠ s1.currentPos then
        ({ s1 with
             lastSaved := s1.currentPos,
             eepromSaved := true,
             lastEepromSaveTime := now },
         { e with currentPos := s1.currentPos }, false)
      else (s1, e, false)
    else (s1, e, false)
  else (s1, e, true)

/-- `initialize_eeprom()`: if the sentinel flag differs from
`EEPROM_FLAG_VALUE`, write the defaults (min 0, max 1000, current the
midpoint) and the valid sentinel; otherwise leave the record untouched. -/
def initialize_eeprom (e : Eeprom) : Eeprom :=
  if e.flag ≠ EEPROM_FLAG_VALUE then
    { minPos := DEFAULT_MIN_POS, maxPos := DEFAULT_MAX_POS,
      currentPos := (DEFAULT_MIN_POS + DEFAULT_MAX_POS) / 2,
      flag := EEPROM_FLAG_VALUE }
  else e

/-- The program state right after `setup()`: positions loaded by
`load_positions_from_eeprom`, `lastSaved = currentPos`, and every other
global and `static` local still at its C zero/initializer
(`calibratingMin = true`, `eepromSaved = false`, `lastReqLiftRaw = 0`,
`holdTimer = 0`, `motorDisabled = false`). -/
def setup_state (e : Eeprom) : BlindsState :=
  { minPos := e.minPos, maxPos := e.maxPos, currentPos := e.currentPos,
    lastSaved := e.currentPos, lastMoveTime := 0, eepromSaved := false,
    lastEepromSaveTime := 0, calibratingMin := true, holdTimer := 0,
    lastReqLiftRaw := 0, motorDisabled := false }

/-- The specification's percentage formula, written from its words: the
real-valued linear remap rounded to the nearest integer. -/
def percent_spec (minP maxP cur : Nat) : Int :=
  round ((((cur : ℚ) - (minP : ℚ)) / ((maxP : ℚ) - (minP : ℚ))) * 100)

/-- A calibrated state used to instantiate the general theorems on concrete
inputs: defaults min 0 / max 1000, current position 500, all timers idle. -/
def sampleState : BlindsState :=
  { minPos := 0, maxPos := 1000, currentPos := 500, lastSaved := 500,
    lastMoveTime := 0, eepromSaved := false, lastEepromSaveTime := 0,
    calibratingMin := true, holdTimer := 0, lastReqLiftRaw := 0,
    motorDisabled := false }

/-! ## C4: limit-checked single step is a no-op at a boundary -/

/-- C4: with `ignoreLimits = false`, a single step that would cross a
boundary (`moveUp` at `currentPos ≥ maxPos`, or down at
`currentPos ≤ minPos`) leaves the whole state unchanged and reports
nothing — a silent no-op, not an error. -/
theorem single_step_limit_noop (s : BlindsState) (now : Nat) (moveUp : Bool)
    (h : (moveUp = true ∧ s.maxPos ≤ s.currentPos) ∨
         (moveUp = false ∧ s.currentPos ≤ s.minPos)) :
    move_stepper_single_step moveUp false now s = (s, []) := by
  rcases h with ⟨hm, hle⟩ | ⟨hm, hle⟩ <;> subst hm <;>
    simp [move_stepper_single_step, hle]

/-- Witness for `single_step_limit_noop`: stepping up at
`currentPos = maxPos = 1000` changes nothing. -/
theorem single_step_limit_noop_witness :
    move_stepper_single_step true false 5 { sampleState with currentPos := 1000 } =
      ({ sampleState with currentPos := 1000 }, []) :=
  single_step_limit_noop { sampleState with currentPos := 1000 } 5 true
    (Or.inl ⟨rfl, by decide⟩)

/-! ## C8: EEPROM initialization on sentinel mismatch -/

/-- C8: if the sentinel flag differs from the valid marker, the defaults
`minPos = 0`, `maxPos = 1000`, `currentPos = midpoint = 500` and the valid
sentinel are written; if the sentinel matches, the stored record is left
unchanged.  (`initialize_eeprom` is total, so a corrupt sentinel is never
fatal.) -/
theorem initialize_eeprom_defaults (e : Eeprom) :
    (e.flag ≠ EEPROM_FLAG_VALUE →
      initialize_eeprom e =
        { minPos := 0, maxPos := 1000, currentPos := 500,
          flag := EEPROM_FLAG_VALUE }) ∧
    (e.flag = EEPROM_FLAG_VALUE → initialize_eeprom e = e) := by
  constructor
  · intro h
    simp [initialize_eeprom, h, DEFAULT_MIN_POS, DEFAULT_MAX_POS]
  · intro h
    simp [initialize_eeprom, h]

/-- Witness for `initialize_eeprom_defaults`: an all-zero record is
rewritten with the defaults. -/
theorem initialize_eeprom_defaults_witness :
    initialize_eeprom ⟨0, 0, 0, 0⟩ =
      { minPos := 0, maxPos := 1000, currentPos := 500,
        flag := EEPROM_FLAG_VALUE } :=
  (initialize_eeprom_defaults ⟨0, 0, 0, 0⟩).1 (by decide)

/-! ## C10: the boot value of `lastReqLiftRaw` shadows a first request of 0 -/

/-- C10: `lastReqLiftRaw` starts at 0, so right after `setup()` a remote
request whose raw value is 0 is treated as already handled: the handler
returns with no motion, no state change and no Matter report, even though
no request was ever handled. -/
theorem first_zero_request_ignored (e : Eeprom) (reqPercent : Int) (now : Nat) :
    run_matter_mode 0 reqPercent now (setup_state (initialize_eeprom e)) =
      some (setup_state (initialize_eeprom e), 0, []) := by
  simp [run_matter_mode, setup_state]

/-! ## C2: the reported percentage truncates, it does not round -/

/-- C2 counterexample: at `minPos = 0`, `maxPos = 1000`,
`currentPos = 999` the program reports 99 % (Arduino `map` truncates),
while the spec's rounded remap gives 100 %. -/
theorem percent_round_counterexample :
    (percent_of 0 1000 999 : Int) ≠ percent_spec 0 1000 999 ∧
    percent_of 0 1000 999 = 99 ∧ percent_spec 0 1000 999 = 100 := by
  have hspec : percent_spec 0 1000 999 = 100 := by
    unfold percent_spec
    rw [round_eq, Int.floor_eq_iff]
    constructor <;> norm_num
  refine ⟨?_, by decide, hspec⟩
  rw [hspec]
  decide

/-- C2 amended: for `minPos ≤ currentPos ≤ maxPos` with
`minPos < maxPos`, the reported percentage is the *truncating* remap
`(currentPos - minPos) * 100 / (maxPos - minPos)` (floor division), and it
lies in [0, 100]. -/
theorem percent_floor_in_range (minP maxP cur : Nat)
    (h1 : minP ≤ cur) (h2 : cur ≤ maxP) (h3 : minP < maxP) :
    percent_of minP maxP cur = (cur - minP) * 100 / (maxP - minP) ∧
    percent_of minP maxP cur ≤ 100 := by
  have hb : (cur - minP) * 100 / (maxP - minP) ≤ 100 := by
    have hmul : (cur - minP) * 100 ≤ (maxP - minP) * 100 :=
      Nat.mul_le_mul_right 100 (by omega)
    calc (cur - minP) * 100 / (maxP - minP)
        ≤ (maxP - minP) * 100 / (maxP - minP) := Nat.div_le_div_right hmul
      _ = 100 := Nat.mul_div_cancel_left 100 (by omega)
  have hcast : map_arduino (cur : Int) (minP : Int) (maxP : Int) 0 100 =
      ((cur - minP) * 100 / (maxP - minP) : Nat) := by
    unfold map_arduino
    have e1 : (cur : Int) - (minP : Int) = ((cur - minP : Nat) : Int) := by omega
    have e2 : (maxP : Int) - (minP : Int) = ((maxP - minP : Nat) : Int) := by omega
    rw [e1, e2]
    have e3 : ((cur - minP : Nat) : Int) * ((100 : Int) - 0) =
        (((cur - minP) * 100 : Nat) : Int) := by push_cast; ring
    rw [e3, add_zero, ← Int.ofNat_tdiv]
  have hlt : (((cur - minP) * 100 / (maxP - minP) : Nat) : Int) < 65536 := by
    exact_mod_cast lt_of_le_of_lt hb (by norm_num)
  have hmain : percent_of minP maxP cur = (cur - minP) * 100 / (maxP - minP) := by
    unfold percent_of toU16
    rw [hcast, Int.emod_eq_of_lt (by positivity) hlt]
    exact Int.toNat_ofNat _
  exact ⟨hmain, hmain ▸ hb⟩

/-- Witness for `percent_floor_in_range`: at min 200, max 800, current 500
the device reports 50 %. -/
theorem percent_floor_in_range_witness :
    percent_of 200 800 500 = (500 - 200) * 100 / (800 - 200) ∧
    percent_of 200 800 500 ≤ 100 :=
  percent_floor_in_range 200 800 500 (by decide) (by decide) (by decide)

/-! ## C3: the idle auto-save is additionally gated on `eepromSaved` -/

/-- A state reachable after an auto-save followed by further motion: the
save left `eepromSaved = true` (nothing ever clears it), then a move made
`currentPos` differ from `lastSaved` again. -/
def staleSavedState : BlindsState :=
  { minPos := 0, maxPos := 1000, currentPos := 600, lastSaved := 500,
    lastMoveTime := 1000000, eepromSaved := true,
    lastEepromSaveTime := 900000, calibratingMin := true, holdTimer := 0,
    lastReqLiftRaw := 0, motorDisabled := false }

/-- C3 counterexample: at time 1400000 every hypothesis of the claim holds
for `staleSavedState` — 400 s ≥ 5 min since the last motion, the in-memory
position 600 differs from the persisted 500, and 500 s ≥ 5 min since the
last successful save — yet `updateSleepAndAutoSave` performs no write: the
EEPROM record is returned unchanged, because the code additionally requires
`eepromSaved = false` and nothing ever resets that flag after a save. -/
theorem autosave_skipped_counterexample :
    (AUTO_SAVE_INTERVAL ≤ 1400000 - staleSavedState.lastMoveTime) ∧
    staleSavedState.lastSaved ≠ staleSavedState.currentPos ∧
    (AUTO_SAVE_INTERVAL ≤ 1400000 - staleSavedState.lastEepromSaveTime) ∧
    (updateSleepAndAutoSave 1400000 staleSavedState ⟨0, 1000, 500, 0xABCD⟩).2.1 =
      ⟨0, 1000, 500, 0xABCD⟩ ∧
    (⟨0, 1000, 500, 0xABCD⟩ : Eeprom).currentPos ≠ staleSavedState.currentPos := by
  decide

/-- Once `eepromSaved` is set, `updateSleepAndAutoSave` never writes the
store again: the save branch is guarded by `!eepromSaved` and no code path
clears the flag. -/
lemma autosave_noop_of_saved (now : Nat) (s : BlindsState) (e : Eeprom)
    (hs : s.eepromSaved = true) :
    (updateSleepAndAutoSave now s e).2.1 = e := by
  unfold updateSleepAndAutoSave
  by_cases hc : MOTOR_DISABLE_INTERVAL ≤ now - s.lastMoveTime <;>
    · simp only [hc, if_true, if_false, ge_iff_le, hs]
      split_ifs <;> simp_all

/-- C3 amended: with the extra hypothesis `eepromSaved = false` (true from
boot until the first auto-save), the update at an idle instant with an
unsaved position change writes `currentPos` to the store, marks it saved,
records the save time, and leaves the sleep pin low (driver asleep); and a
second update run in the resulting state never writes again — so exactly
one persistence write occurs in the idle scenario. -/
theorem autosave_writes_once (s : BlindsState) (e : Eeprom) (now : Nat)
    (h1 : AUTO_SAVE_INTERVAL ≤ now - s.lastMoveTime)
    (h2 : s.lastSaved ≠ s.currentPos)
    (h3 : AUTO_SAVE_INTERVAL ≤ now - s.lastEepromSaveTime)
    (h4 : s.eepromSaved = false) :
    (updateSleepAndAutoSave now s e).2.1 = { e with currentPos := s.currentPos } ∧
    (updateSleepAndAutoSave now s e).1.eepromSaved = true ∧
    (updateSleepAndAutoSave now s e).1.lastSaved = s.currentPos ∧
    (updateSleepAndAutoSave now s e).1.lastEepromSaveTime = now ∧
    (updateSleepAndAutoSave now s e).2.2 = false ∧
    (∀ now2 e2,
      (updateSleepAndAutoSave now2 (updateSleepAndAutoSave now s e).1 e2).2.1 = e2) := by
  have hmd : MOTOR_DISABLE_INTERVAL ≤ now - s.lastMoveTime := by
    unfold MOTOR_DISABLE_INTERVAL
    unfold AUTO_SAVE_INTERVAL at h1
    omega
  have hstep : updateSleepAndAutoSave now s e =
      ({ s with
           motorDisabled := true,
           lastSaved := s.currentPos,
           eepromSaved := true,
           lastEepromSaveTime := now },
       { e with currentPos := s.currentPos }, false) := by
    unfold updateSleepAndAutoSave
    simp [hmd, h1, h2, h3, h4]
  rw [hstep]
  refine ⟨rfl, rfl, rfl, rfl, rfl, ?_⟩
  intro now2 e2
  exact autosave_noop_of_saved now2 _ e2 rfl

/-- Witness for `autosave_writes_once`: the stale state with a cleared
saved-flag does get persisted exactly once. -/
theorem autosave_writes_once_witness :
    (updateSleepAndAutoSave 1400000
        { staleSavedState with eepromSaved := false } ⟨0, 1000, 500, 0xABCD⟩).2.1 =
      { (⟨0, 1000, 500, 0xABCD⟩ : Eeprom) with currentPos := 600 } ∧
    (∀ now2 e2,
      (updateSleepAndAutoSave now2
          (updateSleepAndAutoSave 1400000
            { staleSavedState with eepromSaved := false } ⟨0, 1000, 500, 0xABCD⟩).1
          e2).2.1 = e2) := by
  have h := autosave_writes_once { staleSavedState with eepromSaved := false }
    ⟨0, 1000, 500, 0xABCD⟩ 1400000 (by decide) (by decide) (by decide) rfl
  exact ⟨h.1, h.2.2.2.2.2⟩

/-! ## C5: the remote-position handler is idempotent in the requested raw value -/

/-- Whenever `run_matter_mode` returns, the handled request is recorded:
the resulting `lastReqLiftRaw` equals the requested raw value (trivially so
on the early-return path, where the two were already equal). -/
lemma run_matter_mode_records_request (reqLiftRaw : Nat) (reqPercent : Int)
    (now : Nat) (s : BlindsState) (s1 : BlindsState) (n1 : Nat)
    (ev1 : List MatterEvent)
    (h : run_matter_mode reqLiftRaw reqPercent now s = some (s1, n1, ev1)) :
    s1.lastReqLiftRaw = reqLiftRaw := by
  unfold run_matter_mode at h
  by_cases he : reqLiftRaw = s.lastReqLiftRaw
  · rw [if_pos he] at h
    injection h with h
    injection h with h1 h2
    rw [← h1, he]
  · rw [if_neg he] at h
    dsimp only at h
    split at h
    · exact absurd h (by simp)
    · injection h with h
      injection h with h1 h2
      rw [← h1]

/-- C5: if the requested raw value equals the last handled one, the
handler changes no state, performs no motion and reports nothing; and
after any run that handled request `reqLiftRaw`, running the handler again
with the same raw value is such a no-op — so two calls in a row with the
same requested raw value perform motion at most once. -/
theorem matter_handler_idempotent (reqLiftRaw : Nat) (p p2 : Int)
    (now now2 : Nat) (s : BlindsState) :
    (reqLiftRaw = s.lastReqLiftRaw →
      run_matter_mode reqLiftRaw p now s = some (s, 0, [])) ∧
    (∀ s1 n1 ev1, run_matter_mode reqLiftRaw p now s = some (s1, n1, ev1) →
      run_matter_mode reqLiftRaw p2 now2 s1 = some (s1, 0, [])) := by
  constructor
  · intro h
    simp [run_matter_mode, h]
  · intro s1 n1 ev1 h
    have hrec := run_matter_mode_records_request reqLiftRaw p now s s1 n1 ev1 h
    simp [run_matter_mode, hrec]

/-- A small calibrated range (min 0, max 10, current 5), used so that the
concrete motion below is only a few steps long. -/
def smallState : BlindsState :=
  { minPos := 0, maxPos := 10, currentPos := 5, lastSaved := 5,
    lastMoveTime := 0, eepromSaved := false, lastEepromSaveTime := 0,
    calibratingMin := true, holdTimer := 0, lastReqLiftRaw := 0,
    motorDisabled := false }

/-- The state after `smallState` handled a request for raw 8 / 80 %: the
controller drove to raw 8 and recorded the request. -/
def movedState : BlindsState :=
  { smallState with currentPos := 8, lastMoveTime := 10, lastReqLiftRaw := 8 }

/-- Witness for `matter_handler_idempotent`: a request for raw 8 / 80 %
moves once (3 steps, 5 to 8) and a second call with the same raw value is
a stateless no-op. -/
theorem matter_handler_idempotent_witness :
    run_matter_mode 8 80 10 smallState =
      some (movedState, 3,
            [MatterEvent.opOpening, MatterEvent.actualRaw 8,
             MatterEvent.opStopped]) ∧
    run_matter_mode 8 80 20 movedState = some (movedState, 0, []) := by
  have h1 : run_matter_mode 8 80 10 smallState =
      some (movedState, 3,
            [MatterEvent.opOpening, MatterEvent.actualRaw 8,
             MatterEvent.opStopped]) := by decide
  exact ⟨h1, (matter_handler_idempotent 8 80 80 10 20 smallState).2 _ _ _ h1⟩

/-! ## Calibration engine lemmas (C7, C1, C9) -/

/-- A single step touches only `currentPos` and `lastMoveTime`. -/
lemma single_step_touches_only_position (b ig : Bool) (now : Nat)
    (s : BlindsState) :
    (move_stepper_single_step b ig now s).1.minPos = s.minPos ∧
    (move_stepper_single_step b ig now s).1.maxPos = s.maxPos ∧
    (move_stepper_single_step b ig now s).1.calibratingMin = s.calibratingMin ∧
    (move_stepper_single_step b ig now s).1.holdTimer = s.holdTimer := by
  unfold move_stepper_single_step
  split_ifs <;> simp

/-- A calibration step batch touches only `currentPos` and `lastMoveTime`. -/
lemma do_steps_touches_only_position (b : Bool) (now : Nat) :
    ∀ (k : Nat) (s : BlindsState),
    (do_steps b now k s).minPos = s.minPos ∧
    (do_steps b now k s).maxPos = s.maxPos ∧
    (do_steps b now k s).calibratingMin = s.calibratingMin ∧
    (do_steps b now k s).holdTimer = s.holdTimer := by
  intro k
  induction k with
  | zero => intro s; exact ⟨rfl, rfl, rfl, rfl⟩
  | succ k ih =>
    intro s
    have hs := single_step_touches_only_position b true now s
    have hk := ih (move_stepper_single_step b true now s).1
    unfold do_steps
    exact ⟨hk.1.trans hs.1, hk.2.1.trans hs.2.1,
           hk.2.2.1.trans hs.2.2.1, hk.2.2.2.trans hs.2.2.2⟩

/-- Projections of a state whose `holdTimer` was just overwritten. -/
lemma holdTimer_update_fields (x : BlindsState) (t : Nat) :
    ({ x with holdTimer := t }).holdTimer = t ∧
    ({ x with holdTimer := t }).minPos = x.minPos ∧
    ({ x with holdTimer := t }).maxPos = x.maxPos ∧
    ({ x with holdTimer := t }).calibratingMin = x.calibratingMin :=
  ⟨rfl, rfl, rfl, rfl⟩

/-- C7: in calibration mode, a boundary commit requires the full
3-second combined hold.  In any iteration where the two buttons are not
both pressed, the hold timer is reset to zero and nothing is committed:
the EEPROM record, the boundaries and the calibration sub-state are
unchanged (so a held-both-then-one-released sequence never commits).  And
while both buttons are pressed, neither single-button move branch fires:
`currentPos` is unchanged. -/
theorem commit_requires_full_hold (up down : Bool) (now : Nat)
    (s : BlindsState) (e : Eeprom) :
    (¬(up = true ∧ down = true) →
      (run_calibration_mode true up down now s e).1.holdTimer = 0 ∧
      (run_calibration_mode true up down now s e).2 = e ∧
      (run_calibration_mode true up down now s e).1.minPos = s.minPos ∧
      (run_calibration_mode true up down now s e).1.maxPos = s.maxPos ∧
      (run_calibration_mode true up down now s e).1.calibratingMin
        = s.calibratingMin) ∧
    (up = true → down = true →
      (run_calibration_mode true up down now s e).1.currentPos
        = s.currentPos) := by
  constructor
  · intro hnot
    cases hup : up <;> cases hdown : down
    · have hr : run_calibration_mode true false false now s e =
          ({ s with holdTimer := 0 }, e) := by
        unfold run_calibration_mode
        simp only [Bool.not_true, Bool.not_false, Bool.and_false, Bool.and_true,
          Bool.true_and, Bool.false_and, Bool.and_self, Bool.false_eq_true,
          Bool.true_eq_false, if_true, if_false, ite_self]
      rw [hr]
      exact ⟨rfl, rfl, rfl, rfl, rfl⟩
    · have hr : run_calibration_mode true false true now s e =
          ({ do_steps false now STEPS_PER_PRESS s with holdTimer := 0 }, e) := by
        unfold run_calibration_mode
        simp only [Bool.not_true, Bool.not_false, Bool.and_false, Bool.and_true,
          Bool.true_and, Bool.false_and, Bool.and_self, Bool.false_eq_true,
          Bool.true_eq_false, if_true, if_false, ite_self]
      rw [hr]
      have hdo := do_steps_touches_only_position false now STEPS_PER_PRESS s
      have hu := holdTimer_update_fields (do_steps false now STEPS_PER_PRESS s) 0
      exact ⟨hu.1, rfl, hu.2.1.trans hdo.1, hu.2.2.1.trans hdo.2.1,
        hu.2.2.2.trans hdo.2.2.1⟩
    · have hr : run_calibration_mode true true false now s e =
          ({ do_steps true now STEPS_PER_PRESS s with holdTimer := 0 }, e) := by
        unfold run_calibration_mode
        simp only [Bool.not_true, Bool.not_false, Bool.and_false, Bool.and_true,
          Bool.true_and, Bool.false_and, Bool.and_self, Bool.false_eq_true,
          Bool.true_eq_false, if_true, if_false, ite_self]
      rw [hr]
      have hdo := do_steps_touches_only_position true now STEPS_PER_PRESS s
      have hu := holdTimer_update_fields (do_steps true now STEPS_PER_PRESS s) 0
      exact ⟨hu.1, rfl, hu.2.1.trans hdo.1, hu.2.2.1.trans hdo.2.1,
        hu.2.2.2.trans hdo.2.2.1⟩
    · exact absurd ⟨hup, hdown⟩ hnot
  · intro hup hdown
    subst hup; subst hdown
    unfold run_calibration_mode
    simp only [Bool.not_true, Bool.and_false, Bool.false_and, if_false,
      Bool.and_self, if_true, Bool.true_and, Bool.and_true, ite_self]
    split_ifs <;> rfl

/-- Witness for `commit_requires_full_hold`: one button pressed alone
resets the hold timer and commits nothing. -/
theorem commit_requires_full_hold_witness :
    (run_calibration_mode true true false 0 sampleState
        ⟨0, 1000, 500, 0xABCD⟩).1.holdTimer = 0 ∧
    (run_calibration_mode true true false 0 sampleState
        ⟨0, 1000, 500, 0xABCD⟩).2 = ⟨0, 1000, 500, 0xABCD⟩ ∧
    (run_calibration_mode true true false 0 sampleState
        ⟨0, 1000, 500, 0xABCD⟩).1.minPos = sampleState.minPos ∧
    (run_calibration_mode true true false 0 sampleState
        ⟨0, 1000, 500, 0xABCD⟩).1.maxPos = sampleState.maxPos ∧
    (run_calibration_mode true true false 0 sampleState
        ⟨0, 1000, 500, 0xABCD⟩).1.calibratingMin = sampleState.calibratingMin :=
  (commit_requires_full_hold true false 0 sampleState
    ⟨0, 1000, 500, 0xABCD⟩).1 (by simp)

/-- A full-hold both-button iteration while `CalibratingMin` commits
`currentPos` as the new MIN and advances to `CalibratingMax`
(lines 257-262 of the sketch). -/
lemma commit_min_fields (s : BlindsState) (e : Eeprom) (now : Nat)
    (hcal : s.calibratingMin = true) (hh : s.holdTimer ≠ 0)
    (ht : HOLD_TIMER_THRESHOLD ≤ now - s.holdTimer) :
    (run_calibration_mode true true true now s e).1.minPos = s.currentPos ∧
    (run_calibration_mode true true true now s e).1.calibratingMin = false := by
  unfold run_calibration_mode
  simp [hcal, hh, ht]

/-- A full-hold both-button iteration while `CalibratingMax` commits with
the auto-swap of lines 264-272: the lower of `currentPos` and the saved
`minPos` becomes MIN, the higher becomes MAX. -/
lemma commit_max_fields (s : BlindsState) (e : Eeprom) (now : Nat)
    (hcal : s.calibratingMin = false) (hh : s.holdTimer ≠ 0)
    (ht : HOLD_TIMER_THRESHOLD ≤ now - s.holdTimer) :
    (run_calibration_mode true true true now s e).1.minPos
      = (if s.currentPos < s.minPos then s.currentPos else s.minPos) ∧
    (run_calibration_mode true true true now s e).1.maxPos
      = (if s.currentPos < s.minPos then s.minPos else s.currentPos) := by
  unfold run_calibration_mode
  simp [hcal, hh, ht]

/-- C1: a committed calibration cycle keeps `minPos ≤ maxPos`.  The first
full-hold iteration (state `s`, `CalibratingMin`) commits `s.currentPos`
as MIN and advances to `CalibratingMax`; `s2` is any later state that kept
that committed MIN and sub-state (moves between commits touch only
`currentPos`, `lastMoveTime` and the hold timer, cf.
`do_steps_touches_only_position`).  The second full-hold iteration then
auto-swaps: the final boundaries are `min`/`max` of the two committed raw
positions, so `minPos ≤ maxPos`. -/
theorem calibration_cycle_auto_swap (s s2 : BlindsState) (e e2 : Eeprom)
    (now1 now2 : Nat)
    (hcal : s.calibratingMin = true) (hh1 : s.holdTimer ≠ 0)
    (ht1 : HOLD_TIMER_THRESHOLD ≤ now1 - s.holdTimer)
    (hmin : s2.minPos = (run_calibration_mode true true true now1 s e).1.minPos)
    (hcal2 : s2.calibratingMin
      = (run_calibration_mode true true true now1 s e).1.calibratingMin)
    (hh2 : s2.holdTimer ≠ 0)
    (ht2 : HOLD_TIMER_THRESHOLD ≤ now2 - s2.holdTimer) :
    (run_calibration_mode true true true now1 s e).1.minPos = s.currentPos ∧
    (run_calibration_mode true true true now2 s2 e2).1.minPos
      = min s.currentPos s2.currentPos ∧
    (run_calibration_mode true true true now2 s2 e2).1.maxPos
      = max s.currentPos s2.currentPos ∧
    (run_calibration_mode true true true now2 s2 e2).1.minPos
      ≤ (run_calibration_mode true true true now2 s2 e2).1.maxPos := by
  obtain ⟨hc1, hc2⟩ := commit_min_fields s e now1 hcal hh1 ht1
  rw [hc1] at hmin
  rw [hc2] at hcal2
  obtain ⟨hm1, hm2⟩ := commit_max_fields s2 e2 now2 hcal2 hh2 ht2
  rw [hmin] at hm1 hm2
  refine ⟨hc1, ?_, ?_, ?_⟩
  · rw [hm1, min_def]
    split_ifs <;> omega
  · rw [hm2, max_def]
    split_ifs <;> omega
  · rw [hm1, hm2]
    split_ifs <;> omega

/-- The state holding both buttons at raw 800 while `CalibratingMin`. -/
def holdAt800 : BlindsState :=
  { sampleState with currentPos := 800, holdTimer := 1 }

/-- After the MIN commit at 800, the operator moved down to raw 200 and is
holding both buttons again. -/
def holdAt200AfterMin800 : BlindsState :=
  { sampleState with
      minPos := 800, currentPos := 200, calibratingMin := false,
      holdTimer := 5000 }

/-- Witness for `calibration_cycle_auto_swap`: committing MIN at raw 800
and then MAX at raw 200 auto-swaps to `minPos = 200`, `maxPos = 800`. -/
theorem calibration_cycle_auto_swap_witness :
    (run_calibration_mode true true true 4000 holdAt800
        ⟨0, 1000, 500, 0xABCD⟩).1.minPos = 800 ∧
    (run_calibration_mode true true true 9000 holdAt200AfterMin800
        ⟨800, 1000, 500, 0xABCD⟩).1.minPos = min 800 200 ∧
    (run_calibration_mode true true true 9000 holdAt200AfterMin800
        ⟨800, 1000, 500, 0xABCD⟩).1.maxPos = max 800 200 ∧
    (run_calibration_mode true true true 9000 holdAt200AfterMin800
        ⟨800, 1000, 500, 0xABCD⟩).1.minPos
      ≤ (run_calibration_mode true true true 9000 holdAt200AfterMin800
          ⟨800, 1000, 500, 0xABCD⟩).1.maxPos := by
  have h := calibration_cycle_auto_swap holdAt800 holdAt200AfterMin800
    ⟨0, 1000, 500, 0xABCD⟩ ⟨800, 1000, 500, 0xABCD⟩ 4000 9000
    rfl (by decide) (by decide) (by decide) (by decide) (by decide) (by decide)
  exact ⟨h.1, h.2.1, h.2.2.1, h.2.2.2⟩

/-- C9: nothing prevents committing both boundaries at the same physical
position.  A MAX commit in a state whose `currentPos` still equals the
saved `minPos` (reachable by committing MIN and then holding again without
moving) takes the no-swap branch and sets `maxPos := currentPos = minPos`.
In the resulting state the divisor `in_max - in_min` of the percent remap
(`map_arduino currentPos minPos maxPos 0 100`, evaluated on every
reporting step, line 182) is zero — the percent computation divides by
zero, so `minPos < maxPos` is required for it to be safe. -/
theorem equal_boundaries_div_zero (s2 : BlindsState) (e2 : Eeprom) (now2 : Nat)
    (hcal2 : s2.calibratingMin = false)
    (hcur : s2.currentPos = s2.minPos)
    (hh2 : s2.holdTimer ≠ 0)
    (ht2 : HOLD_TIMER_THRESHOLD ≤ now2 - s2.holdTimer) :
    (run_calibration_mode true true true now2 s2 e2).1.minPos
      = (run_calibration_mode true true true now2 s2 e2).1.maxPos ∧
    (((run_calibration_mode true true true now2 s2 e2).1.maxPos : Int)
      - ((run_calibration_mode true true true now2 s2 e2).1.minPos : Int)) = 0 := by
  obtain ⟨hm1, hm2⟩ := commit_max_fields s2 e2 now2 hcal2 hh2 ht2
  rw [hcur] at hm1 hm2
  simp only [lt_irrefl, if_false] at hm1 hm2
  constructor
  · rw [hm1, hm2]
  · rw [hm1, hm2]
    omega

/-- The state right after a MIN commit at raw 300, still at raw 300, with
both buttons held past the threshold again. -/
def holdAt300AfterMin300 : BlindsState :=
  { sampleState with
      minPos := 300, currentPos := 300, calibratingMin := false,
      holdTimer := 5000 }

/-- Witness for `equal_boundaries_div_zero`: after a MIN commit at raw 300
and a second hold without moving, both boundaries are 300 and the percent
divisor is zero. -/
theorem equal_boundaries_div_zero_witness :
    (run_calibration_mode true true true 9000 holdAt300AfterMin300
        ⟨300, 1000, 500, 0xABCD⟩).1.minPos
      = (run_calibration_mode true true true 9000 holdAt300AfterMin300
          ⟨300, 1000, 500, 0xABCD⟩).1.maxPos :=
  (equal_boundaries_div_zero holdAt300AfterMin300
    ⟨300, 1000, 500, 0xABCD⟩ 9000 rfl rfl (by decide) (by decide)).1

/-! ## C6: the step-until-target loop terminates with exactly |target − current| steps -/

/-- Going up from `cur` with the target `d` steps above, the loop reaches
the target in exactly `d` iterations (no `uint16_t` wrap occurs on the
way, since the target is below 2^16). -/
lemma step_loop_up : ∀ (d fuel cur : Nat), d ≤ fuel → cur + d < U16 →
    step_loop true (cur + d) fuel cur = some (cur + d, d) := by
  intro d
  induction d with
  | zero =>
    intro fuel cur _ _
    cases fuel <;> simp [step_loop]
  | succ d ih =>
    intro fuel cur hfuel hlt
    cases fuel with
    | zero => omega
    | succ fuel =>
      have hne : cur ≠ cur + (d + 1) := by omega
      have hmod : (cur + 1) % U16 = cur + 1 := Nat.mod_eq_of_lt (by unfold U16 at *; omega)
      have harr : cur + (d + 1) = (cur + 1) + d := by omega
      unfold step_loop
      rw [if_neg hne]
      simp only [if_true, hmod]
      rw [harr, ih fuel (cur + 1) (by omega) (by omega)]

/-- Going down from `d` steps above the target, the loop reaches the
target in exactly `d` iterations (the decrement `(cur + 65535) % 2^16`
is an ordinary `cur - 1` for `0 < cur < 2^16`). -/
lemma step_loop_down : ∀ (d fuel newPos : Nat), d ≤ fuel → newPos + d < U16 →
    step_loop false newPos fuel (newPos + d) = some (newPos, d) := by
  intro d
  induction d with
  | zero =>
    intro fuel newPos _ _
    cases fuel <;> simp [step_loop]
  | succ d ih =>
    intro fuel newPos hfuel hlt
    cases fuel with
    | zero => omega
    | succ fuel =>
      have hne : newPos + (d + 1) ≠ newPos := by omega
      have hmod : (newPos + (d + 1) + 65535) % U16 = newPos + d := by
        unfold U16 at *
        have : newPos + (d + 1) + 65535 = (newPos + d) + 65536 := by omega
        rw [this, Nat.add_mod_right, Nat.mod_eq_of_lt (by omega)]
      unfold step_loop
      rw [if_neg hne]
      simp only [Bool.false_eq_true, if_false, hmod]
      rw [ih fuel newPos (by omega) (by omega)]

/-- C6: for any `uint16_t` current position and target,
`move_stepper_to_position` terminates, performs exactly
`|target - currentPos|` step iterations, and ends with `currentPos` equal
to the target; with the target equal to the current position it performs
zero iterations and returns the state unchanged. -/
theorem move_to_position_exact (s : BlindsState) (newPos now : Nat)
    (hc : s.currentPos < U16) (hn : newPos < U16) :
    move_stepper_to_position newPos now s =
      some ({ s with
                currentPos := newPos,
                lastMoveTime := if newPos = s.currentPos then s.lastMoveTime
                                else now },
            if s.currentPos ≤ newPos then newPos - s.currentPos
            else s.currentPos - newPos) ∧
    (newPos = s.currentPos → move_stepper_to_position newPos now s = some (s, 0)) := by
  have hmain : move_stepper_to_position newPos now s =
      some ({ s with
                currentPos := newPos,
                lastMoveTime := if newPos = s.currentPos then s.lastMoveTime
                                else now },
            if s.currentPos ≤ newPos then newPos - s.currentPos
            else s.currentPos - newPos) := by
    unfold move_stepper_to_position
    rcases Nat.lt_or_ge s.currentPos newPos with hlt | hge
    · have hd : newPos = s.currentPos + (newPos - s.currentPos) := by omega
      have hloop := step_loop_up (newPos - s.currentPos) U16 s.currentPos
        (by omega) (by omega)
      rw [← hd] at hloop
      rw [decide_eq_true hlt]
      dsimp only
      rw [hloop]
      dsimp only
      rw [if_neg (by omega : ¬(newPos - s.currentPos = 0)),
        if_neg (by omega : ¬(newPos = s.currentPos)),
        if_pos (by omega : s.currentPos ≤ newPos)]
    · have hd : s.currentPos = newPos + (s.currentPos - newPos) := by omega
      have hloop := step_loop_down (s.currentPos - newPos) U16 newPos
        (by omega) (by omega)
      rw [← hd] at hloop
      rw [decide_eq_false (by omega : ¬(s.currentPos < newPos))]
      dsimp only
      rw [hloop]
      dsimp only
      rw [(by split_ifs <;> omega :
        (if s.currentPos ≤ newPos then newPos - s.currentPos
         else s.currentPos - newPos) = s.currentPos - newPos)]
      by_cases hz : s.currentPos - newPos = 0
      · rw [if_pos hz, if_pos (by omega : newPos = s.currentPos)]
      · rw [if_neg hz, if_neg (by omega : ¬(newPos = s.currentPos))]
  refine ⟨hmain, fun heq => ?_⟩
  rw [hmain, if_pos heq, if_pos (by omega), heq]
  simp

/-- Witness for `move_to_position_exact`: from raw 500, driving to 750
takes exactly 250 iterations, and driving to 500 takes zero. -/
theorem move_to_position_exact_witness :
    move_stepper_to_position 750 77 sampleState =
      some ({ sampleState with currentPos := 750, lastMoveTime := 77 }, 250) ∧
    move_stepper_to_position 500 77 sampleState = some (sampleState, 0) := by
  have h1 := (move_to_position_exact sampleState 750 77 (by decide) (by decide)).1
  have h2 := (move_to_position_exact sampleState 500 77 (by decide) (by decide)).2 rfl
  refine ⟨?_, h2⟩
  simpa using h1

end SmartBlinds
